import Mathlib

/-!
Verification of the Discovery-and-Merge core of `src/App.tsx`.

We shallowly embed the component `App`: its state hooks become the fields of
`AppState`, the async handler `handleSearch` becomes a pure function from the
pre-state, the provider response and a timestamp to the post-state (paired
with a flag recording that the external provider call was issued), and the
`renderContent` switch becomes a function from the current tab and the
session user to the effective rendered page.  Numeric literals of the source
are embedded as rationals; JS string templates over `Date.now()` and the
chunk index become `String` append over `toString` of naturals.
-/

/-- Telemetry sub-record of an Asset (`types.ts` schema as used by `App.tsx`). -/
structure Telemetry where
  stress : ℚ
  strain : ℚ
  loadCapacity : ℚ
  vibrationFrequency : ℚ
deriving DecidableEq, Repr

/-- An infrastructure Asset record, as constructed and consumed by `App.tsx`.
The `timeline` entries are opaque to the core (the source only ever builds
`[]` for discovered assets), so they are embedded as `Unit`. -/
structure Asset where
  id : String
  name : String
  type : String
  coordinates : ℚ × ℚ
  riskScore : ℚ
  age : ℚ
  lastMaintenance : String
  loadFactor : ℚ
  climateImpact : ℚ
  description : String
  zone : String
  timeline : List Unit
  telemetry : Telemetry
deriving DecidableEq, Repr

/-- The `maps` grounding payload of a provider chunk; only its optional
`title` field is consumed by `App.tsx`. -/
structure MapsPayload where
  title : Option String
deriving DecidableEq, Repr

/-- One grounding chunk of the provider response: it optionally carries a
`maps` payload (`chunk.maps` in the source). -/
structure GroundingChunk where
  maps : Option MapsPayload
deriving DecidableEq, Repr

/-- Outcome of the awaited provider call in `handleSearch`:
`err` is a thrown transport/provider error (caught at line 86);
`ok none` is a response whose optional-chained
`candidates?.[0]?.groundingMetadata?.groundingChunks` is undefined;
`ok (some cs)` is a response carrying the chunk list `cs`. -/
inductive ProviderResult where
  | err : ProviderResult
  | ok : Option (List GroundingChunk) → ProviderResult
deriving DecidableEq, Repr

/-- A session user as returned by `db.getCurrentUser()`; only `role` is
consumed by `App.tsx`. -/
structure User where
  name : String
  role : String
deriving DecidableEq, Repr

/-- The React state of the `App` component: one field per `useState` hook. -/
structure AppState where
  currentTab : String
  selectedAsset : Option Asset
  assets : List Asset
  isSearching : Bool
  isSidebarOpen : Bool
  isDarkMode : Bool
deriving DecidableEq, Repr

/-- The asset synthesized for a grounding chunk carrying a `maps` payload
(lines 63-77 of `App.tsx`); `now` embeds the value `Date.now()` observed
during the loop and `index` is the position of the chunk in the response.
Note that the JS fallback `chunk.maps.title || "Discovered Infra"` also
fires on an empty title string, since `""` is falsy. -/
def mkAsset (now : Nat) (index : Nat) (m : MapsPayload) : Asset :=
  { id := "ai-" ++ toString now ++ "-" ++ toString index
    name := match m.title with
      | some t => if t = "" then "Discovered Infra" else t
      | none => "Discovered Infra"
    type := "Road"
    coordinates := (20.5937, 78.9629)
    riskScore := 25
    age := 5
    lastMaintenance := "2023-12-01"
    loadFactor := 7.5
    climateImpact := 6.0
    description := "AI-grounded infrastructure discovery via Google Maps."
    zone := "Pan-India"
    timeline := []
    telemetry := { stress := 10, strain := 50, loadCapacity := 100000, vibrationFrequency := 4.5 } }

/-- The `chunks.forEach((chunk, index) => if (chunk.maps) newAssets.push(...))`
loop of lines 61-79, with `index` threaded explicitly: chunks lacking the
`maps` payload are skipped, the rest are turned into assets in response order. -/
def newAssetsFrom (cs : List GroundingChunk) (now : Nat) (index : Nat) : List Asset :=
  match cs with
  | [] => []
  | c :: rest =>
    match c.maps with
    | some m => mkAsset now index m :: newAssetsFrom rest now (index + 1)
    | none => newAssetsFrom rest now (index + 1)

/-- The full `newAssets` array built by the loop, starting at index 0. -/
def newAssetsOf (cs : List GroundingChunk) (now : Nat) : List Asset :=
  newAssetsFrom cs now 0

/-- The state after the body of `handleSearch` (lines 50-86) resumes with
provider outcome `r`: the `chunks && chunks.length > 0` guard (line 59), the
`newAssets.length > 0` guard (line 80), the three mutations of lines 81-83,
the `catch` of line 86 that swallows errors, and the `finally` clause that
ends every branch with `isSearching := false`. -/
def searchCompleted (s : AppState) (r : ProviderResult) (now : Nat) : AppState :=
  match r with
  | .err => { s with isSearching := false }
  | .ok none => { s with isSearching := false }
  | .ok (some cs) =>
    if cs.length > 0 then
      let newAssets := newAssetsOf cs now
      if newAssets.length > 0 then
        { s with assets := s.assets ++ newAssets
                 selectedAsset := newAssets.head?
                 currentTab := "map"
                 isSearching := false }
      else { s with isSearching := false }
    else { s with isSearching := false }

/-- The `handleSearch` handler of lines 48-87, observed atomically from the
pre-state to the state after the `finally` clause.  The returned `Bool`
records whether the external provider call (line 52) was issued: the source
contains no guard on `isSearching` between entry and the awaited call, so
the call is issued on every invocation, whatever the pre-state. -/
def handleSearch (s : AppState) (r : ProviderResult) (now : Nat) : AppState × Bool :=
  (searchCompleted s r now, true)

/-- The effective page rendered by `renderContent`; the `login` constructor
carries the `onLoginSuccess` callback, which returns the tab that a
successful login sets via `setCurrentTab`. -/
inductive Page where
  | landing : Page
  | mapView : Page
  | analysis : Page
  | news : Page
  | gov : Page
  | login : (User → String) → Page
  | admin : Page
  | initiatives : Page
  | simulator : Page
  | report : Page

/-- The `switch (currentTab)` of `renderContent` (lines 89-116), as a function
of the current tab and the user returned by the session provider.  The
admin case embeds line 107: the admin dashboard when the user role is admin,
else the login page whose success callback sets the tab to admin; the login
case embeds line 106, whose success callback sets the tab to admin for an
admin-role user and to home otherwise. -/
def renderContent (currentTab : String) (user : Option User) : Page :=
  match currentTab with
  | "home" => .landing
  | "map" => .mapView
  | "analysis" => .analysis
  | "news" => .news
  | "gov" => .gov
  | "login" => .login (fun u => if u.role = "admin" then "admin" else "home")
  | "admin" =>
    match user with
    | some u => if u.role = "admin" then .admin else .login (fun _ => "admin")
    | none => .login (fun _ => "admin")
  | "initiatives" => .initiatives
  | "simulator" => .simulator
  | "report" => .report
  | _ => .landing

/-- The raw selection setter `setSelectedAsset`: it stores its argument
unconditionally, with no membership check against the store. -/
def setSelectedAsset (s : AppState) (a : Option Asset) : AppState :=
  { s with selectedAsset := a }

/-- The tab setter `setCurrentTab`. -/
def setCurrentTab (s : AppState) (t : String) : AppState :=
  { s with currentTab := t }

/-- The sidebar setter `setIsSidebarOpen`. -/
def setIsSidebarOpen (s : AppState) (b : Bool) : AppState :=
  { s with isSidebarOpen := b }

/-- `toggleTheme = () => setIsDarkMode(!isDarkMode)` (line 46). -/
def toggleTheme (s : AppState) : AppState :=
  { s with isDarkMode := !s.isDarkMode }

/-- JS truthiness of the string returned by `localStorage.getItem`:
`null` and the empty string are falsy. -/
def truthyStr : Option String → Bool
  | none => false
  | some s => !(s = "")

/-- The `useState` initializer of `isDarkMode` (lines 28-34): when `window`
is defined, the stored theme compared against the string dark, or-else the
conjunction of the stored theme being falsy and the OS dark preference; and
`false` with no `window`. -/
def initDarkMode (windowDefined : Bool) (stored : Option String) (osPrefersDark : Bool) : Bool :=
  if windowDefined then
    (stored = some "dark") || (!(truthyStr stored) && osPrefersDark)
  else
    false

/-- The value the theme `useEffect` (lines 36-44) persists under the key
`theme` for a given `isDarkMode` value. -/
def persistedTheme (dark : Bool) : String :=
  if dark then "dark" else "light"

/-- One user-level operation of the core, used to state store monotonicity:
a completed discovery (with its provider result and observed timestamp), a
selection, a tab change, a theme toggle, or a sidebar toggle. -/
inductive Op where
  | search : ProviderResult → Nat → Op
  | select : Option Asset → Op
  | setTab : String → Op
  | theme : Op
  | sidebar : Bool → Op

/-- Application of one operation to the component state. -/
def applyOp (op : Op) (s : AppState) : AppState :=
  match op with
  | .search r now => (handleSearch s r now).1
  | .select a => setSelectedAsset s a
  | .setTab t => setCurrentTab s t
  | .theme => toggleTheme s
  | .sidebar b => setIsSidebarOpen s b

/-- The id string `ai-${now}-${index}` generated at line 64. -/
def idString (t i : Nat) : String :=
  "ai-" ++ toString t ++ "-" ++ toString i

/-- The chunks of a provider outcome that carry a `maps` payload, i.e. the
ones `handleSearch` turns into assets; empty for an error outcome and for a
response without a chunk list. -/
def usableChunks : ProviderResult → List GroundingChunk
  | .err => []
  | .ok none => []
  | .ok (some cs) => cs.filter fun c => c.maps.isSome

/-- Whether a rendered page is the login page. -/
def isLoginPage : Page → Bool
  | .login _ => true
  | _ => false

/-- The tab that a successful login of user `v` from page `p` would set via
the page's `onLoginSuccess` callback; `none` if `p` is not the login page. -/
def loginTarget (p : Page) (v : User) : Option String :=
  match p with
  | .login f => some (f v)
  | _ => none

/-- A concrete quiescent state over an empty store, used for witnesses. -/
def emptyState : AppState :=
  { currentTab := "home", selectedAsset := none, assets := [],
    isSearching := false, isSidebarOpen := false, isDarkMode := false }

/-- A concrete state with a discovery already in flight. -/
def inFlightState : AppState :=
  { emptyState with isSearching := true }

/-- A concrete provider chunk list carrying one grounded chunk. -/
def oneChunk : List GroundingChunk :=
  [{ maps := some { title := some "Bridge X" } }]

/-- A concrete provider chunk list: grounded, ungrounded, grounded. -/
def mixedChunks : List GroundingChunk :=
  [{ maps := some { title := some "Bridge X" } },
   { maps := none },
   { maps := some { title := some "Bridge Y" } }]

/-- A concrete asset that is not in the store of `emptyState`. -/
def strayAsset : Asset :=
  mkAsset 99 0 { title := some "Stray" }

/-!
Helper lemmas: injectivity of the generated id strings.  The decimal
rendering `toString : Nat → String` is `Nat.repr`, built on
`Nat.toDigitsCore`; we relate it to `Nat.digits` and derive that
`idString` is injective in both arguments.
-/

lemma digitChar_inj10 : ∀ a b : Fin 10, Nat.digitChar a.val = Nat.digitChar b.val → a = b := by
  decide

lemma digitChar_ne_dash : ∀ a : Fin 10, Nat.digitChar a.val ≠ '-' := by
  decide

lemma toDigitsCore_eq_digits (fuel : Nat) :
    ∀ (n : Nat) (ds : List Char), n < fuel → 0 < n →
      Nat.toDigitsCore 10 fuel n ds = ((Nat.digits 10 n).map Nat.digitChar).reverse ++ ds := by
  induction fuel with
  | zero => intro n ds h; omega
  | succ f ih =>
    intro n ds hlt hpos
    rw [Nat.toDigitsCore]
    rw [Nat.digits_def' (by norm_num : (1:Nat) < 10) hpos]
    have hdiv : n / 10 < n := Nat.div_lt_self hpos (by norm_num)
    by_cases h10 : n / 10 = 0
    · simp [h10]
    · rw [if_neg h10]
      rw [ih (n / 10) (Nat.digitChar (n % 10) :: ds) (by omega) (Nat.pos_of_ne_zero h10)]
      simp

lemma toDigits10_zero : Nat.toDigits 10 0 = ['0'] := rfl

lemma toDigits10_pos (n : Nat) (hn : 0 < n) :
    Nat.toDigits 10 n = ((Nat.digits 10 n).map Nat.digitChar).reverse := by
  unfold Nat.toDigits
  rw [toDigitsCore_eq_digits (n + 1) n [] (by omega) hn, List.append_nil]

lemma toDigits10_mem (n : Nat) : ∀ c ∈ Nat.toDigits 10 n, ∃ d : Fin 10, c = Nat.digitChar d.val := by
  rcases Nat.eq_zero_or_pos n with h | h
  · subst h
    rw [toDigits10_zero]
    intro c hc
    simp only [List.mem_singleton] at hc
    exact ⟨0, by rw [hc]; rfl⟩
  · rw [toDigits10_pos n h]
    intro c hc
    rw [List.mem_reverse, List.mem_map] at hc
    obtain ⟨d, hd, rfl⟩ := hc
    have hd10 : d < 10 := Nat.digits_lt_base (by norm_num) hd
    exact ⟨⟨d, hd10⟩, rfl⟩

lemma map_digitChar_inj : ∀ (l1 l2 : List Nat), (∀ d ∈ l1, d < 10) → (∀ d ∈ l2, d < 10) →
    l1.map Nat.digitChar = l2.map Nat.digitChar → l1 = l2 := by
  intro l1
  induction l1 with
  | nil =>
    intro l2 _ _ h
    cases l2 <;> simp_all
  | cons a t ih =>
    intro l2 h1 h2 h
    cases l2 with
    | nil => simp at h
    | cons b t2 =>
      simp only [List.map_cons, List.cons.injEq] at h
      have ha : a < 10 := h1 a (by simp)
      have hb : b < 10 := h2 b (by simp)
      have hab : (⟨a, ha⟩ : Fin 10) = ⟨b, hb⟩ := digitChar_inj10 _ _ h.1
      have hrest := ih t2 (fun d hd => h1 d (by simp [hd])) (fun d hd => h2 d (by simp [hd])) h.2
      simp only [List.cons.injEq]
      exact ⟨by simpa using congrArg Fin.val hab, hrest⟩

lemma toDigits10_inj (m n : Nat) (h : Nat.toDigits 10 m = Nat.toDigits 10 n) : m = n := by
  rcases Nat.eq_zero_or_pos m with hm | hm <;> rcases Nat.eq_zero_or_pos n with hn | hn
  · omega
  · exfalso
    subst hm
    rw [toDigits10_zero, toDigits10_pos n hn] at h
    have hdig : Nat.digits 10 n = [0] := by
      apply map_digitChar_inj
      · intro d hd; exact Nat.digits_lt_base (by norm_num) hd
      · intro d hd; simp only [List.mem_singleton] at hd; omega
      · have := congrArg List.reverse h
        simpa using this.symm
    have hofd := Nat.ofDigits_digits 10 n
    rw [hdig] at hofd
    simp [Nat.ofDigits] at hofd
    omega
  · exfalso
    subst hn
    rw [toDigits10_zero, toDigits10_pos m hm] at h
    have hdig : Nat.digits 10 m = [0] := by
      apply map_digitChar_inj
      · intro d hd; exact Nat.digits_lt_base (by norm_num) hd
      · intro d hd; simp only [List.mem_singleton] at hd; omega
      · have := congrArg List.reverse h
        simpa using this
    have hofd := Nat.ofDigits_digits 10 m
    rw [hdig] at hofd
    simp [Nat.ofDigits] at hofd
    omega
  · rw [toDigits10_pos m hm, toDigits10_pos n hn] at h
    have hrev := congrArg List.reverse h
    simp only [List.reverse_reverse] at hrev
    have hdig : Nat.digits 10 m = Nat.digits 10 n := by
      apply map_digitChar_inj
      · intro d hd; exact Nat.digits_lt_base (by norm_num) hd
      · intro d hd; exact Nat.digits_lt_base (by norm_num) hd
      · exact hrev
    have h1 := Nat.ofDigits_digits 10 m
    have h2 := Nat.ofDigits_digits 10 n
    rw [hdig] at h1
    omega

lemma dash_not_mem_toDigits (n : Nat) : '-' ∉ Nat.toDigits 10 n := by
  intro hmem
  obtain ⟨d, hd⟩ := toDigits10_mem n '-' hmem
  exact digitChar_ne_dash d hd.symm

lemma dash_split : ∀ (a1 a2 b1 b2 : List Char), '-' ∉ a1 → '-' ∉ a2 →
    a1 ++ '-' :: b1 = a2 ++ '-' :: b2 → a1 = a2 ∧ b1 = b2 := by
  intro a1
  induction a1 with
  | nil =>
    intro a2 b1 b2 _ h2 h
    cases a2 with
    | nil => simpa using h
    | cons c t =>
      exfalso
      simp only [List.nil_append, List.cons_append, List.cons.injEq] at h
      exact h2 (h.1 ▸ List.mem_cons_self c t)
  | cons c t ih =>
    intro a2 b1 b2 h1 h2 h
    cases a2 with
    | nil =>
      exfalso
      simp only [List.nil_append, List.cons_append, List.cons.injEq] at h
      exact h1 (h.1 ▸ List.mem_cons_self c t)
    | cons c2 t2 =>
      simp only [List.cons_append, List.cons.injEq] at h
      obtain ⟨rfl, h'⟩ := h
      have hrec := ih t2 b1 b2 (fun hm => h1 (List.mem_cons_of_mem _ hm))
        (fun hm => h2 (List.mem_cons_of_mem _ hm)) h'
      exact ⟨by rw [hrec.1], hrec.2⟩

lemma idString_data (t i : Nat) :
    (idString t i).data = 'a' :: 'i' :: '-' :: (Nat.toDigits 10 t ++ '-' :: Nat.toDigits 10 i) := by
  show ("ai-" ++ toString t ++ "-" ++ toString i).data = _
  rw [String.data_append, String.data_append, String.data_append]
  show ['a', 'i', '-'] ++ (Nat.toDigits 10 t) ++ ['-'] ++ (Nat.toDigits 10 i) = _
  simp

lemma idString_inj (t1 i1 t2 i2 : Nat) (h : idString t1 i1 = idString t2 i2) :
    t1 = t2 ∧ i1 = i2 := by
  have hd := congrArg String.data h
  rw [idString_data, idString_data] at hd
  simp only [List.cons.injEq, true_and] at hd
  have hsep := dash_split _ _ _ _ (dash_not_mem_toDigits t1) (dash_not_mem_toDigits t2) hd
  exact ⟨toDigits10_inj _ _ hsep.1, toDigits10_inj _ _ hsep.2⟩

lemma mkAsset_id (now index : Nat) (m : MapsPayload) :
    (mkAsset now index m).id = idString now index := rfl

/-!
Helper lemmas about the synthesis loop and the branches of the handler.
-/

lemma newAssetsFrom_length (now : Nat) :
    ∀ (cs : List GroundingChunk) (i : Nat),
      (newAssetsFrom cs now i).length = (cs.filter fun c => c.maps.isSome).length := by
  intro cs
  induction cs with
  | nil => intro i; rfl
  | cons c rest ih =>
    intro i
    cases hm : c.maps with
    | none => simp [newAssetsFrom, hm, List.filter_cons, ih]
    | some m => simp [newAssetsFrom, hm, List.filter_cons, ih]

lemma mem_newAssetsFrom (now : Nat) :
    ∀ (cs : List GroundingChunk) (i : Nat) (a : Asset), a ∈ newAssetsFrom cs now i →
      ∃ j, i ≤ j ∧ a.id = idString now j := by
  intro cs
  induction cs with
  | nil => intro i a h; simp [newAssetsFrom] at h
  | cons c rest ih =>
    intro i a h
    cases hm : c.maps with
    | none =>
      simp only [newAssetsFrom, hm] at h
      obtain ⟨j, hj, hid⟩ := ih (i + 1) a h
      exact ⟨j, by omega, hid⟩
    | some m =>
      simp only [newAssetsFrom, hm, List.mem_cons] at h
      cases h with
      | inl h => exact ⟨i, le_refl i, by rw [h, mkAsset_id]⟩
      | inr h =>
        obtain ⟨j, hj, hid⟩ := ih (i + 1) a h
        exact ⟨j, by omega, hid⟩

lemma newAssetsFrom_ids_nodup (now : Nat) :
    ∀ (cs : List GroundingChunk) (i : Nat), ((newAssetsFrom cs now i).map Asset.id).Nodup := by
  intro cs
  induction cs with
  | nil => intro i; simp [newAssetsFrom]
  | cons c rest ih =>
    intro i
    cases hm : c.maps with
    | none => simp only [newAssetsFrom, hm]; exact ih (i + 1)
    | some m =>
      simp only [newAssetsFrom, hm, List.map_cons]
      rw [List.nodup_cons]
      refine ⟨?_, ih (i + 1)⟩
      intro hmem
      rw [List.mem_map] at hmem
      obtain ⟨a, ha, hid⟩ := hmem
      obtain ⟨j, hj, hid2⟩ := mem_newAssetsFrom now rest (i + 1) a ha
      have hji : j = i := by
        have heq : idString now j = idString now i := by
          rw [← hid2, hid, mkAsset_id]
        exact (idString_inj now j now i heq).2
      omega

lemma searchCompleted_of_no_usable (s : AppState) (cs : List GroundingChunk) (now : Nat)
    (h : (newAssetsOf cs now).length = 0) :
    searchCompleted s (.ok (some cs)) now = { s with isSearching := false } := by
  simp only [searchCompleted]
  by_cases hcs : cs.length > 0
  · rw [if_pos hcs, if_neg (by omega)]
  · rw [if_neg hcs]

lemma searchCompleted_of_usable (s : AppState) (cs : List GroundingChunk) (now : Nat)
    (h : 0 < (newAssetsOf cs now).length) :
    searchCompleted s (.ok (some cs)) now =
      { s with assets := s.assets ++ newAssetsOf cs now
               selectedAsset := (newAssetsOf cs now).head?
               currentTab := "map"
               isSearching := false } := by
  have hcs : 0 < cs.length := by
    cases cs with
    | nil => simp [newAssetsOf, newAssetsFrom] at h
    | cons c rest => simp
  simp only [searchCompleted]
  rw [if_pos hcs, if_pos h]

/-!
Claim theorems.
-/

/-- Claim C1 (code bug demonstration): the source contains no guard on
`isSearching`, so `handleSearch` issues the external provider call even when
invoked from a state in which a discovery is already in flight — contrary to
the claim that such a call is rejected or ignored. -/
theorem c1_provider_called_even_in_flight :
    ∀ (r : ProviderResult) (now : Nat),
      inFlightState.isSearching = true ∧ (handleSearch inFlightState r now).2 = true := by
  intro r now
  exact ⟨rfl, rfl⟩

/-- Claim C2: a discovery call that fails, or whose response carries no chunk
with a grounding payload, leaves the asset store, the selection and the
current view unchanged. -/
theorem c2_no_mutation_on_empty_or_error :
    ∀ (s : AppState) (r : ProviderResult) (now : Nat), usableChunks r = [] →
      (handleSearch s r now).1.assets = s.assets ∧
      (handleSearch s r now).1.selectedAsset = s.selectedAsset ∧
      (handleSearch s r now).1.currentTab = s.currentTab := by
  intro s r now h
  cases r with
  | err => exact ⟨rfl, rfl, rfl⟩
  | ok o =>
    cases o with
    | none => exact ⟨rfl, rfl, rfl⟩
    | some cs =>
      have hfil : (cs.filter fun c => c.maps.isSome) = [] := h
      have hlen : (newAssetsOf cs now).length = 0 := by
        rw [newAssetsOf, newAssetsFrom_length, hfil]
        rfl
      have hs : (handleSearch s (.ok (some cs)) now).1 = { s with isSearching := false } :=
        searchCompleted_of_no_usable s cs now hlen
      rw [hs]
      exact ⟨rfl, rfl, rfl⟩

/-- Witness for C2: a response with one ungrounded chunk mutates nothing. -/
theorem c2_witness :
    (handleSearch emptyState (.ok (some [{ maps := none }])) 0).1.assets = emptyState.assets ∧
    (handleSearch emptyState (.ok (some [{ maps := none }])) 0).1.selectedAsset = emptyState.selectedAsset ∧
    (handleSearch emptyState (.ok (some [{ maps := none }])) 0).1.currentTab = emptyState.currentTab :=
  c2_no_mutation_on_empty_or_error emptyState (.ok (some [{ maps := none }])) 0 (by decide)

/-- Claim C3: when at least one response chunk carries a grounding payload,
exactly the payload-carrying chunks yield assets (one asset per such chunk,
in response order), the new assets are appended after the existing store
contents, the selection becomes the first new asset, and the view becomes
the map view. -/
theorem c3_merge_appends :
    ∀ (s : AppState) (cs : List GroundingChunk) (now : Nat),
      (∃ c ∈ cs, c.maps.isSome = true) →
      (newAssetsOf cs now).length = (cs.filter fun c => c.maps.isSome).length ∧
      (handleSearch s (.ok (some cs)) now).1.assets = s.assets ++ newAssetsOf cs now ∧
      (handleSearch s (.ok (some cs)) now).1.selectedAsset = (newAssetsOf cs now).head? ∧
      (handleSearch s (.ok (some cs)) now).1.currentTab = "map" := by
  intro s cs now h
  have hlen : (newAssetsOf cs now).length = (cs.filter fun c => c.maps.isSome).length :=
    newAssetsFrom_length now cs 0
  have hpos : 0 < (newAssetsOf cs now).length := by
    rw [hlen]
    obtain ⟨c, hc, hm⟩ := h
    have : c ∈ cs.filter fun c => c.maps.isSome := by
      rw [List.mem_filter]
      exact ⟨hc, hm⟩
    exact List.length_pos.mpr (List.ne_nil_of_mem this)
  refine ⟨hlen, ?_⟩
  have hs : (handleSearch s (.ok (some cs)) now).1 =
      { s with assets := s.assets ++ newAssetsOf cs now
               selectedAsset := (newAssetsOf cs now).head?
               currentTab := "map"
               isSearching := false } :=
    searchCompleted_of_usable s cs now hpos
  rw [hs]
  exact ⟨rfl, rfl, rfl⟩

/-- Witness for C3: a three-chunk response with one ungrounded chunk yields
two assets, appended in order, selected and routed to the map view. -/
theorem c3_witness :
    (newAssetsOf mixedChunks 0).length = (mixedChunks.filter fun c => c.maps.isSome).length ∧
    (handleSearch emptyState (.ok (some mixedChunks)) 0).1.assets = emptyState.assets ++ newAssetsOf mixedChunks 0 ∧
    (handleSearch emptyState (.ok (some mixedChunks)) 0).1.selectedAsset = (newAssetsOf mixedChunks 0).head? ∧
    (handleSearch emptyState (.ok (some mixedChunks)) 0).1.currentTab = "map" :=
  c3_merge_appends emptyState mixedChunks 0 (by decide)

/-- Claim C4: on every exit path of the handler — error, missing chunk list,
empty or unusable chunk list, or successful merge — `isSearching` is false
when the call completes (the `finally` clause). -/
theorem c4_in_flight_reset :
    ∀ (s : AppState) (r : ProviderResult) (now : Nat),
      (handleSearch s r now).1.isSearching = false := by
  intro s r now
  show (searchCompleted s r now).isSearching = false
  cases r with
  | err => rfl
  | ok o =>
    cases o with
    | none => rfl
    | some cs =>
      by_cases hlen : 0 < (newAssetsOf cs now).length
      · rw [searchCompleted_of_usable s cs now hlen]
      · rw [searchCompleted_of_no_usable s cs now (by omega)]

/-- Counterexample for C5: two discovery calls that observe the same
timestamp produce colliding ids — the store then holds two assets with the
same id `ai-0-0`, refuting store-wide id uniqueness across calls. -/
theorem c5_counterexample_same_timestamp :
    ((handleSearch (handleSearch emptyState (.ok (some oneChunk)) 0).1
        (.ok (some oneChunk)) 0).1.assets.map Asset.id) = ["ai-0-0", "ai-0-0"] ∧
    ¬ ((handleSearch (handleSearch emptyState (.ok (some oneChunk)) 0).1
        (.ok (some oneChunk)) 0).1.assets.map Asset.id).Nodup := by
  decide

/-- Claim C5 as amended: within a single discovery call the synthesized ids
are pairwise distinct (the chunk ordinal is part of the id), and ids from
two calls are distinct whenever the observed timestamps differ; uniqueness
is not guaranteed when two calls observe the same timestamp. -/
theorem c5_amended_ids_unique :
    (∀ (cs : List GroundingChunk) (now : Nat), ((newAssetsOf cs now).map Asset.id).Nodup) ∧
    (∀ (cs1 cs2 : List GroundingChunk) (now1 now2 : Nat), now1 ≠ now2 →
      ∀ a1 ∈ newAssetsOf cs1 now1, ∀ a2 ∈ newAssetsOf cs2 now2, a1.id ≠ a2.id) := by
  constructor
  · intro cs now
    exact newAssetsFrom_ids_nodup now cs 0
  · intro cs1 cs2 now1 now2 hne a1 h1 a2 h2 heq
    obtain ⟨j1, _, hid1⟩ := mem_newAssetsFrom now1 cs1 0 a1 h1
    obtain ⟨j2, _, hid2⟩ := mem_newAssetsFrom now2 cs2 0 a2 h2
    rw [hid1, hid2] at heq
    exact hne (idString_inj now1 j1 now2 j2 heq).1

/-- Witness for C5 as amended: assets minted at timestamps 0 and 1 get
distinct ids. -/
theorem c5_amended_witness :
    (mkAsset 0 0 { title := some "Bridge X" }).id ≠ (mkAsset 1 0 { title := some "Bridge X" }).id :=
  c5_amended_ids_unique.2 oneChunk oneChunk 0 1 (by decide)
    (mkAsset 0 0 { title := some "Bridge X" }) (by simp [newAssetsOf, newAssetsFrom, oneChunk])
    (mkAsset 1 0 { title := some "Bridge X" }) (by simp [newAssetsOf, newAssetsFrom, oneChunk])

/-- Claim C6: requesting the admin view renders the login page — never the
admin dashboard — when the session provider returns no user or a user whose
role is not admin, and renders the admin dashboard when the role is admin. -/
theorem c6_admin_gate :
    ∀ (user : Option User),
      (user.map User.role ≠ some "admin" →
        isLoginPage (renderContent "admin" user) = true ∧
        renderContent "admin" user ≠ Page.admin) ∧
      (user.map User.role = some "admin" → renderContent "admin" user = Page.admin) := by
  intro user
  cases user with
  | none =>
    refine ⟨fun _ => ⟨rfl, fun h => Page.noConfusion h⟩, fun h => by simp at h⟩
  | some u =>
    constructor
    · intro h
      have hr : u.role ≠ "admin" := by simpa using h
      simp only [renderContent]
      rw [if_neg hr]
      exact ⟨rfl, fun hh => Page.noConfusion hh⟩
    · intro h
      have hr : u.role = "admin" := by simpa using h
      simp only [renderContent]
      rw [if_pos hr]

/-- Witness for C6: no session yields the login page, an admin session yields
the admin dashboard. -/
theorem c6_witness :
    (isLoginPage (renderContent "admin" none) = true ∧
      renderContent "admin" none ≠ Page.admin) ∧
    renderContent "admin" (some { name := "a", role := "admin" }) = Page.admin :=
  ⟨(c6_admin_gate none).1 (by simp),
   (c6_admin_gate (some { name := "a", role := "admin" })).2 (by simp)⟩

/-- Counterexample for C7: selecting an asset that is not in the store is
not rejected — the selection is changed to that asset, which is absent from
the store afterwards. -/
theorem c7_counterexample_unchecked_select :
    (setSelectedAsset emptyState (some strayAsset)).selectedAsset = some strayAsset ∧
    strayAsset ∉ (setSelectedAsset emptyState (some strayAsset)).assets := by
  exact ⟨rfl, by decide⟩

/-- Claim C7 as amended: `setSelectedAsset` stores its argument
unconditionally and never touches the store, so selection validity is
maintained only by construction, when the selected reference comes from the
store, not by any membership check. -/
theorem c7_amended_select_stores_argument :
    ∀ (s : AppState) (a : Option Asset),
      (setSelectedAsset s a).selectedAsset = a ∧ (setSelectedAsset s a).assets = s.assets := by
  intro s a
  exact ⟨rfl, rfl⟩

/-- Claim C8: every operation of the core — a completed discovery, a
selection, a tab change, a theme toggle or a sidebar toggle — leaves the
existing store contents as an unchanged prefix: entries are only ever
appended, never removed or mutated. -/
theorem c8_store_monotone :
    ∀ (op : Op) (s : AppState), ∃ ys, (applyOp op s).assets = s.assets ++ ys := by
  intro op s
  cases op with
  | search r now =>
    cases r with
    | err => exact ⟨[], by simp [applyOp, handleSearch, searchCompleted]⟩
    | ok o =>
      cases o with
      | none => exact ⟨[], by simp [applyOp, handleSearch, searchCompleted]⟩
      | some cs =>
        by_cases hlen : 0 < (newAssetsOf cs now).length
        · refine ⟨newAssetsOf cs now, ?_⟩
          show (searchCompleted s (.ok (some cs)) now).assets = _
          rw [searchCompleted_of_usable s cs now hlen]
        · refine ⟨[], ?_⟩
          show (searchCompleted s (.ok (some cs)) now).assets = _
          rw [searchCompleted_of_no_usable s cs now (by omega)]
          simp
  | select a => exact ⟨[], by simp [applyOp, setSelectedAsset]⟩
  | setTab t => exact ⟨[], by simp [applyOp, setCurrentTab]⟩
  | theme => exact ⟨[], by simp [applyOp, toggleTheme]⟩
  | sidebar b => exact ⟨[], by simp [applyOp, setIsSidebarOpen]⟩

/-- Claim C9: the theme boolean is initialized from the persisted preference
when one was written (`dark` wins, `light` loses), else from the OS
preference, else false (no window); every toggle flips the value, and the
persistence effect writes the rendering of the new value. -/
theorem c9_theme_init_and_toggle :
    (∀ os : Bool, initDarkMode true (some "dark") os = true) ∧
    (∀ os : Bool, initDarkMode true (some "light") os = false) ∧
    (∀ os : Bool, initDarkMode true none os = os) ∧
    (∀ (stored : Option String) (os : Bool), initDarkMode false stored os = false) ∧
    (∀ s : AppState, (toggleTheme s).isDarkMode = !s.isDarkMode) ∧
    (∀ s : AppState, persistedTheme (toggleTheme s).isDarkMode =
      if s.isDarkMode then "light" else "dark") := by
  refine ⟨fun os => by cases os <;> rfl,
          fun os => by cases os <;> rfl,
          fun os => by cases os <;> rfl,
          fun stored os => rfl,
          fun s => rfl,
          fun s => ?_⟩
  cases h : s.isDarkMode <;> simp [persistedTheme, toggleTheme, h]

/-- Claim C10: when the admin view is requested without a qualifying session,
the substitute login page routes every successfully authenticated user to the
admin tab, regardless of role; the login view proper routes admin-role users
to the admin tab and all other users to the home tab. -/
theorem c10_login_callbacks :
    ∀ (user : Option User) (v : User),
      (user.map User.role ≠ some "admin" →
        loginTarget (renderContent "admin" user) v = some "admin") ∧
      loginTarget (renderContent "login" user) v =
        some (if v.role = "admin" then "admin" else "home") := by
  intro user v
  constructor
  · intro h
    cases user with
    | none => rfl
    | some u =>
      have hr : u.role ≠ "admin" := by simpa using h
      simp only [renderContent]
      rw [if_neg hr]
      rfl
  · cases user <;> rfl

/-- Witness for C10: with no session, a viewer-role login from the
admin-gated login page is routed to the admin tab. -/
theorem c10_witness :
    loginTarget (renderContent "admin" none) { name := "u", role := "viewer" } = some "admin" :=
  (c10_login_callbacks none { name := "u", role := "viewer" }).1 (by simp)
